import Mathlib

/-!
Verification of the `hydro` Open Service Broker contract package (`pkg/osb`).

The repository supplies the broker interface (`pkg/osb/broker.go`), the
request/response/error data shapes (`pkg/osb/types.go`) and a Makefile; it
contains no orchestrator implementation.  The development below therefore has
two layers:

* a direct embedding of the declarations in `pkg/osb` (error values, the
  `OpenServiceBroker` interface's method signatures, the field types of the
  request structures), and
* a state-machine model of the Broker Orchestrator, whose doc comments start
  with `Modelled from the spec:`, built faithfully from the specification's
  §4.4 transition rules because that component is absent from the source.
-/

/-- The error kinds of the specification's error taxonomy (§7). -/
inductive ErrorKind where
  | notFound
  | duplicate
  | alreadyProvisioned
  | bindingExists
  | provisionInProgress
  | deprovisionInProgress
  | updateInProgress
  | planNotFound
  | parameterNotFound
  | parameterNotUpdatable
  | planUpdateNotPossible
  | forbidden
  | adapterFailure
deriving DecidableEq, Repr

/-- The error value (its `errors.New` message string) that `pkg/osb/types.go`
declares for a taxonomy kind, or `none` when the package declares no error
value for that kind.  Each `some` case transcribes one `Error...` variable of
the source's `var (...)` block. -/
def declaredErrorMessage : ErrorKind → Option String
  | .notFound => some "not found"
  | .duplicate => some "duplicate instance"
  | .alreadyProvisioned => some "already provisioned"
  | .bindingExists => some "binding exists"
  | .provisionInProgress => some "provision in progress"
  | .deprovisionInProgress => some "deprovision in progress"
  | .updateInProgress => some "update in progress"
  | .planNotFound => some "plan not found"
  | .parameterNotFound => some "parameter not found"
  | .parameterNotUpdatable => some "parameter not updatable"
  | .planUpdateNotPossible => some "plan update not possible"
  | .forbidden => some "User does not have sufficient permissions"
  | .adapterFailure => none

/-- Go types appearing in the `pkg/osb` declarations, as an object language. -/
inductive GoType where
  | uuid
  | boolT
  | stringT
  | contextT
  | errorT
  | serviceInstance
  | bindInstance
  | catalogResponse
  | provisionRequest
  | provisionResponse
  | deprovisionResponse
  | bindRequest
  | bindResponse
  | unbindResponse
  | updateRequest
  | updateResponse
  | lastOperationRequest
  | lastOperationResponse
  | osbContextStruct
  | previousValuesStruct
  | bindResourceStruct
  | parametersT
  | mapStringString
  | mapStringValue
  | ptr : GoType → GoType
deriving DecidableEq, Repr

/-- A Go method signature: name, parameter types and result types. -/
structure MethodSig where
  name : String
  params : List GoType
  results : List GoType
deriving DecidableEq, Repr

/-- The `OpenServiceBroker` interface of `pkg/osb/broker.go`, method by
method, in source order. -/
def openServiceBroker : List MethodSig :=
  [ ⟨"Catalog", [], [.ptr .catalogResponse, .errorT]⟩,
    ⟨"Provision", [.uuid, .ptr .provisionRequest, .boolT, .contextT],
      [.ptr .provisionResponse, .errorT]⟩,
    ⟨"Deprovision", [.serviceInstance, .stringT, .boolT, .contextT],
      [.ptr .deprovisionResponse, .errorT]⟩,
    ⟨"Bind", [.serviceInstance, .uuid, .ptr .bindRequest, .boolT, .contextT],
      [.ptr .bindResponse, .boolT, .errorT]⟩,
    ⟨"Unbind", [.serviceInstance, .bindInstance, .stringT, .boolT, .contextT],
      [.ptr .unbindResponse, .errorT]⟩,
    ⟨"Update", [.uuid, .ptr .updateRequest, .boolT, .contextT],
      [.ptr .updateResponse, .errorT]⟩,
    ⟨"LastOperation", [.uuid, .ptr .lastOperationRequest],
      [.ptr .lastOperationResponse, .errorT]⟩,
    ⟨"GetServiceInstance", [.uuid], [.ptr .serviceInstance, .errorT]⟩,
    ⟨"GetBindInstance", [.uuid], [.ptr .bindInstance, .errorT]⟩ ]

/-- The five state-mutating broker operations, per the specification. -/
def mutatingOps : List String :=
  ["Provision", "Deprovision", "Bind", "Unbind", "Update"]

/-- The underlying Go type of the named type `Parameters` in
`pkg/osb/types.go`: `map[string]interface\x7b\x7d`. -/
def parametersUnderlying : GoType := .mapStringValue

/-- Field names and types of `ProvisionRequest` (`pkg/osb/types.go`). -/
def provisionRequestFields : List (String × GoType) :=
  [ ("OrganizationID", .uuid), ("PlanID", .stringT), ("ServiceID", .stringT),
    ("SpaceID", .uuid), ("Context", .osbContextStruct),
    ("Parameters", .parametersT), ("AcceptsIncomplete", .boolT) ]

/-- Field names and types of `BindRequest` (`pkg/osb/types.go`). -/
def bindRequestFields : List (String × GoType) :=
  [ ("ServiceID", .stringT), ("PlanID", .stringT), ("AppID", .uuid),
    ("BindResource", .bindResourceStruct), ("Parameters", .parametersT) ]

/-- Field names and types of `UpdateRequest` (`pkg/osb/types.go`). -/
def updateRequestFields : List (String × GoType) :=
  [ ("ServiceID", .stringT), ("PlanID", .stringT),
    ("Parameters", .mapStringString), ("PreviousValues", .previousValuesStruct),
    ("Context", .osbContextStruct), ("AcceptsIncomplete", .boolT) ]

/-- Look up a field's type in a struct's field list. -/
def fieldType (fields : List (String × GoType)) (f : String) : Option GoType :=
  (fields.find? (fun e => e.1 == f)).map (fun e => e.2)

/-- The `LastOperationStateInProgress` constant of `pkg/osb/types.go`. -/
def LastOperationStateInProgress : String := "in progress"

/-- The `LastOperationStateSucceeded` constant of `pkg/osb/types.go`. -/
def LastOperationStateSucceeded : String := "succeeded"

/-- The `LastOperationStateFailed` constant of `pkg/osb/types.go`. -/
def LastOperationStateFailed : String := "failed"

/-- Opaque service parameters, compared only for equality. -/
abbrev Params := List (String × String)

/-- Modelled from the spec: the per-instance lifecycle states of §4.4
(`ABSENT` and `GONE` are represented by absence from the registry). -/
inductive InstanceState where
  | provisioning
  | provisioned
  | updating
  | deprovisioning
deriving DecidableEq, Repr

/-- Modelled from the spec: a registry record for a `ServiceInstance` (§3):
plan, parameters, owned binding ids, lifecycle state, and the dashboard URL
the Provisioner Adapter returned, retained so an idempotent re-provision can
return the prior result. -/
structure InstanceRec where
  planID : Nat
  params : Params
  bindingIDs : List Nat
  state : InstanceState
  dashboardURL : String
deriving DecidableEq, Repr

/-- Modelled from the spec: a registry record for a `BindInstance` (§3):
owning service instance id, parameters, and the credentials the Provisioner
Adapter returned, retained for idempotent re-bind. -/
structure BindRec where
  serviceID : Nat
  params : Params
  credentials : String
deriving DecidableEq, Repr

/-- Modelled from the spec: the operation kinds an Operation Record can
carry (§3). -/
inductive OpKind where
  | provision
  | deprovision
  | bind
  | unbind
  | update
deriving DecidableEq, Repr

/-- Modelled from the spec: the state of an Operation Record — exactly
in-progress, succeeded or failed (§3). -/
inductive OpState where
  | inProgress
  | succeeded
  | failed
deriving DecidableEq, Repr

/-- Modelled from the spec: an Operation Record of the Operation Tracker
(§3/§4.2). -/
structure OpRec where
  instanceID : Nat
  kind : OpKind
  state : OpState
  description : String
deriving DecidableEq, Repr

/-- Modelled from the spec: the outcome a background worker reports when an
asynchronous Provisioner Adapter call finishes (§4.2/§4.4). -/
inductive Outcome where
  | succeeded : String → Outcome
  | failed : String → Outcome
deriving DecidableEq, Repr

/-- Look up a key in an association list (first match wins). -/
def lookupE {α : Type} : List (Nat × α) → Nat → Option α
  | [], _ => none
  | (k, v) :: rest, q => if q = k then some v else lookupE rest q

/-- Replace the entry at a key in an association list, or append it. -/
def setEntry {α : Type} : List (Nat × α) → Nat → α → List (Nat × α)
  | [], k, v => [(k, v)]
  | (k', v') :: rest, k, v =>
      if k = k' then (k, v) :: rest else (k', v') :: setEntry rest k v

/-- Remove the entry at a key in an association list. -/
def removeEntry {α : Type} (l : List (Nat × α)) (k : Nat) : List (Nat × α) :=
  l.filter (fun e => decide (e.1 ≠ k))

/-- Modelled from the spec: the whole mutable state of the core — the
Instance Registry (instances and bindings), the Operation Tracker, the token
counter, the immutable update graph of the catalog (plan id to the list of
plan ids it may update to), and counters of Provisioner Adapter `Create` and
`Bind` invocations used to state the no-duplicate-invocation properties. -/
structure BrokerState where
  instances : List (Nat × InstanceRec)
  bindings : List (Nat × BindRec)
  operations : List (Nat × OpRec)
  nextToken : Nat
  createCalls : Nat
  bindCalls : Nat
  catalog : List (Nat × List Nat)
deriving DecidableEq, Repr

/-- Modelled from the spec: the Provisioner Adapter's `Create`, as a
deterministic external collaborator returning a dashboard URL (§4.3). -/
def adapterCreate (id : Nat) (_p : Params) : String :=
  "dashboard:" ++ toString id

/-- Modelled from the spec: the Provisioner Adapter's `Bind`, returning
credentials (§4.3). -/
def adapterBind (instID bindID : Nat) (_p : Params) : String :=
  "creds:" ++ toString instID ++ ":" ++ toString bindID

/-- Modelled from the spec: the response of a provision call — dashboard URL
and operation token, mirroring `ProvisionResponse`. -/
structure ProvisionResponse where
  DashboardURL : String
  Operation : String
deriving DecidableEq, Repr

/-- Modelled from the spec: the response of a deprovision call, mirroring
`DeprovisionResponse`. -/
structure DeprovisionResponse where
  Operation : String
deriving DecidableEq, Repr

/-- Modelled from the spec: the response of a bind call, mirroring
`BindResponse` with credentials flattened to a string. -/
structure BindResponse where
  Credentials : String
  Operation : String
deriving DecidableEq, Repr

/-- Modelled from the spec: the response of an unbind call, mirroring
`UnbindResponse`. -/
structure UnbindResponse where
  Operation : String
deriving DecidableEq, Repr

/-- Modelled from the spec: the response of an update call, mirroring
`UpdateResponse`. -/
structure UpdateResponse where
  Operation : String
deriving DecidableEq, Repr

/-- Modelled from the spec: the response of a last-operation poll, mirroring
`LastOperationResponse`. -/
structure LastOperationResponse where
  State : String
  Description : String
deriving DecidableEq, Repr

/-- Modelled from the spec: §4.4 provision.  On an id already `PROVISIONED`
with identical parameters: idempotent no-op returning the prior result; with
different parameters: `AlreadyProvisioned`; while an operation is in flight:
the matching in-progress error; on an absent id: a synchronous Adapter
`Create` when `acceptsIncomplete` is false, otherwise an asynchronous accept
registering an Operation Record and returning its token.  The adapter-call
counter increments exactly when the Adapter is dispatched. -/
def provisionOp (s : BrokerState) (id planID : Nat) (p : Params)
    (acceptsIncomplete : Bool) :
    BrokerState × Except ErrorKind ProvisionResponse :=
  match lookupE s.instances id with
  | some r =>
    match r.state with
    | .provisioned =>
        if r.params = p then (s, .ok ⟨r.dashboardURL, ""⟩)
        else (s, .error .alreadyProvisioned)
    | .provisioning => (s, .error .provisionInProgress)
    | .updating => (s, .error .updateInProgress)
    | .deprovisioning => (s, .error .deprovisionInProgress)
  | none =>
    if acceptsIncomplete then
      ({ s with
          instances := setEntry s.instances id ⟨planID, p, [], .provisioning, ""⟩,
          operations :=
            s.operations ++ [(s.nextToken, ⟨id, .provision, .inProgress, "provisioning"⟩)],
          nextToken := s.nextToken + 1,
          createCalls := s.createCalls + 1 },
        .ok ⟨"", toString s.nextToken⟩)
    else
      ({ s with
          instances :=
            setEntry s.instances id ⟨planID, p, [], .provisioned, adapterCreate id p⟩,
          createCalls := s.createCalls + 1 },
        .ok ⟨adapterCreate id p, ""⟩)

/-- Modelled from the spec: cascade removal of an instance and every binding
it owns from the Registry. -/
def removeInstance (s : BrokerState) (id : Nat) : BrokerState :=
  { s with
      instances := removeEntry s.instances id,
      bindings := s.bindings.filter (fun e => decide (e.2.serviceID ≠ id)) }

/-- Modelled from the spec: §4.4 deprovision.  Absent id: `NotFound`;
non-empty binding set: `BindingExists` with the Registry untouched; otherwise
synchronous removal, or an asynchronous accept moving the instance to
`DEPROVISIONING`. -/
def deprovisionOp (s : BrokerState) (id : Nat) (acceptsIncomplete : Bool) :
    BrokerState × Except ErrorKind DeprovisionResponse :=
  match lookupE s.instances id with
  | none => (s, .error .notFound)
  | some r =>
    if r.bindingIDs = [] then
      match r.state with
      | .provisioned =>
          if acceptsIncomplete then
            ({ s with
                instances := setEntry s.instances id { r with state := .deprovisioning },
                operations :=
                  s.operations ++ [(s.nextToken, ⟨id, .deprovision, .inProgress, "deprovisioning"⟩)],
                nextToken := s.nextToken + 1 },
              .ok ⟨toString s.nextToken⟩)
          else (removeInstance s id, .ok ⟨""⟩)
      | .provisioning => (s, .error .provisionInProgress)
      | .updating => (s, .error .updateInProgress)
      | .deprovisioning => (s, .error .deprovisionInProgress)
    else (s, .error .bindingExists)

/-- Modelled from the spec: §4.4 bind.  Instance not `PROVISIONED`:
`NotFound` or the in-progress variant matching the instance's own state;
existing binding with identical owner and parameters: idempotent success
returning the prior credentials; different parameters or owner:
`BindingExists`; otherwise a synchronous Adapter `Bind` recording the new
binding and adding its id to the owning instance. -/
def bindOp (s : BrokerState) (instID bindID : Nat) (p : Params)
    (_acceptsIncomplete : Bool) :
    BrokerState × Except ErrorKind BindResponse :=
  match lookupE s.instances instID with
  | none => (s, .error .notFound)
  | some r =>
    match r.state with
    | .provisioning => (s, .error .provisionInProgress)
    | .updating => (s, .error .updateInProgress)
    | .deprovisioning => (s, .error .deprovisionInProgress)
    | .provisioned =>
      match lookupE s.bindings bindID with
      | some b =>
          if b.serviceID = instID ∧ b.params = p then (s, .ok ⟨b.credentials, ""⟩)
          else (s, .error .bindingExists)
      | none =>
          ({ s with
              bindings :=
                setEntry s.bindings bindID ⟨instID, p, adapterBind instID bindID p⟩,
              instances :=
                setEntry s.instances instID { r with bindingIDs := bindID :: r.bindingIDs },
              bindCalls := s.bindCalls + 1 },
            .ok ⟨adapterBind instID bindID p, ""⟩)

/-- Modelled from the spec: §4.4 unbind.  Missing binding (or a binding not
owned by the named instance): `NotFound`; otherwise synchronous removal of
the binding record and of its id from the owning instance. -/
def unbindOp (s : BrokerState) (instID bindID : Nat)
    (_acceptsIncomplete : Bool) :
    BrokerState × Except ErrorKind UnbindResponse :=
  match lookupE s.bindings bindID with
  | none => (s, .error .notFound)
  | some b =>
    if b.serviceID = instID then
      ({ s with
          bindings := removeEntry s.bindings bindID,
          instances :=
            match lookupE s.instances instID with
            | some r =>
                setEntry s.instances instID
                  { r with bindingIDs := r.bindingIDs.filter (fun x => decide (x ≠ bindID)) }
            | none => s.instances },
        .ok ⟨""⟩)
    else (s, .error .notFound)

/-- Modelled from the spec: §4.4 update.  Validates that the target plan
exists (`PlanNotFound`) and that the catalog's update graph allows the
plan-to-plan transition (`PlanUpdateNotPossible`) before changing the plan;
on failure the instance keeps its last-known-good configuration.  Parameter
validation and asynchronous dispatch are not modelled. -/
def updateOp (s : BrokerState) (id newPlan : Nat)
    (_acceptsIncomplete : Bool) :
    BrokerState × Except ErrorKind UpdateResponse :=
  match lookupE s.instances id with
  | none => (s, .error .notFound)
  | some r =>
    match r.state with
    | .provisioning => (s, .error .provisionInProgress)
    | .updating => (s, .error .updateInProgress)
    | .deprovisioning => (s, .error .deprovisionInProgress)
    | .provisioned =>
      match lookupE s.catalog newPlan with
      | none => (s, .error .planNotFound)
      | some _ =>
        match lookupE s.catalog r.planID with
        | none => (s, .error .planNotFound)
        | some updatesTo =>
          if newPlan ∈ updatesTo then
            ({ s with instances := setEntry s.instances id { r with planID := newPlan } },
              .ok ⟨""⟩)
          else (s, .error .planUpdateNotPossible)

/-- Modelled from the spec: the string a last-operation poll reports for an
Operation Record state, using the constants of `pkg/osb/types.go`. -/
def opStateString : OpState → String
  | .inProgress => LastOperationStateInProgress
  | .succeeded => LastOperationStateSucceeded
  | .failed => LastOperationStateFailed

/-- Modelled from the spec: §4.4 last-operation polling — the Tracker's
current status for the token, `NotFound` for an absent token. -/
def lastOperationOp (s : BrokerState) (t : Nat) :
    Except ErrorKind LastOperationResponse :=
  match lookupE s.operations t with
  | none => .error .notFound
  | some r => .ok ⟨opStateString r.state, r.description⟩

/-- Modelled from the spec: the terminal Operation Record a background worker
writes for an outcome (§4.2). -/
def completedRec (r : OpRec) : Outcome → OpRec
  | .succeeded _ => { r with state := .succeeded, description := "completed" }
  | .failed m => { r with state := .failed, description := m }

/-- Modelled from the spec: the Registry effect of a finished asynchronous
operation (§4.4).  On success a provisioning instance becomes `PROVISIONED`
with its dashboard URL; a failed provision or a succeeded deprovision removes
the instance (with cascade); a failed deprovision leaves the instance in its
last-known-good `PROVISIONED` configuration. -/
def completeEffect (s : BrokerState) (r : OpRec) (o : Outcome) : BrokerState :=
  match r.kind, o with
  | .provision, .succeeded url =>
      match lookupE s.instances r.instanceID with
      | some ir =>
          { s with
              instances := setEntry s.instances r.instanceID
                { ir with state := .provisioned, dashboardURL := url } }
      | none => s
  | .provision, .failed _ => removeInstance s r.instanceID
  | .deprovision, .succeeded _ => removeInstance s r.instanceID
  | .deprovision, .failed _ =>
      match lookupE s.instances r.instanceID with
      | some ir =>
          { s with
              instances := setEntry s.instances r.instanceID
                { ir with state := .provisioned } }
      | none => s
  | _, _ => s

/-- Modelled from the spec: the background worker finishing the asynchronous
operation behind a token (§4.2/§4.4).  Only an in-progress record may move;
a record already terminal is never touched (repeated completion is a no-op),
so a terminal outcome is stable. -/
def completeOp (s : BrokerState) (t : Nat) (o : Outcome) : BrokerState :=
  match lookupE s.operations t with
  | none => s
  | some r =>
    match r.state with
    | .succeeded => s
    | .failed => s
    | .inProgress =>
        completeEffect
          { s with operations := setEntry s.operations t (completedRec r o) } r o

/-- Modelled from the spec: the inbound events of the core — one per broker
call that can change state, plus the background completion event. -/
inductive BrokerAction where
  | provisionA : Nat → Nat → Params → Bool → BrokerAction
  | deprovisionA : Nat → Bool → BrokerAction
  | bindA : Nat → Nat → Params → Bool → BrokerAction
  | unbindA : Nat → Nat → Bool → BrokerAction
  | updateA : Nat → Nat → Bool → BrokerAction
  | completeA : Nat → Outcome → BrokerAction
deriving DecidableEq, Repr

/-- Modelled from the spec: the state reached after one action. -/
def applyAction (a : BrokerAction) (s : BrokerState) : BrokerState :=
  match a with
  | .provisionA id plan p ai => (provisionOp s id plan p ai).1
  | .deprovisionA id ai => (deprovisionOp s id ai).1
  | .bindA instID bindID p ai => (bindOp s instID bindID p ai).1
  | .unbindA instID bindID ai => (unbindOp s instID bindID ai).1
  | .updateA id plan ai => (updateOp s id plan ai).1
  | .completeA t o => completeOp s t o

/-- Modelled from the spec: the state reached after a sequence of actions. -/
def runActions (acts : List BrokerAction) (s : BrokerState) : BrokerState :=
  acts.foldl (fun st a => applyAction a st) s

/-- Modelled from the spec: the initial state — empty Registry and Tracker
over a given immutable catalog update graph. -/
def initState (catalog : List (Nat × List Nat)) : BrokerState :=
  ⟨[], [], [], 0, 0, 0, catalog⟩

/-- Modelled from the spec: the referential-integrity invariant of §3 — no
binding names an owning service instance id absent from the Registry. -/
def RefIntegrity (s : BrokerState) : Prop :=
  ∀ e ∈ s.bindings, (lookupE s.instances e.2.serviceID).isSome = true

/-- Concrete parameters used in the witness instantiations. -/
def demoParams : Params := [("size", "small")]

/-- A concrete state holding one `PROVISIONED` instance, as produced by a
synchronous provision of instance 1 on plan 10 from the empty state. -/
def demoProvisioned : BrokerState :=
  ⟨[(1, ⟨10, demoParams, [], .provisioned, "dashboard:1"⟩)], [], [], 0, 1, 0, []⟩

/-- A concrete state holding instance 1 with one binding (id 7). -/
def demoBound : BrokerState :=
  ⟨[(1, ⟨10, demoParams, [7], .provisioned, "dashboard:1"⟩)],
    [(7, ⟨1, demoParams, "creds:1:7"⟩)], [], 1, 1, 1, []⟩

/-- A concrete state with an in-progress provision operation (token 0) for
instance 2, as produced by an asynchronous provision from the empty state. -/
def demoAsync : BrokerState :=
  ⟨[(2, ⟨10, demoParams, [], .provisioning, ""⟩)], [],
    [(0, ⟨2, .provision, .inProgress, "provisioning"⟩)], 1, 1, 0, []⟩

/-- A concrete state whose operation 0 has completed successfully. -/
def demoDone : BrokerState :=
  ⟨[(2, ⟨10, demoParams, [], .provisioned, "dashboard:2"⟩)], [],
    [(0, ⟨2, .provision, .succeeded, "completed"⟩)], 1, 1, 0, []⟩

theorem lookupE_setEntry_self {α : Type} (l : List (Nat × α)) (k : Nat) (v : α) :
    lookupE (setEntry l k v) k = some v := by
  induction l with
  | nil => simp [setEntry, lookupE]
  | cons hd tl ih =>
      obtain ⟨k', v'⟩ := hd
      by_cases h : k = k' <;> simp [setEntry, lookupE, h, ih]

theorem lookupE_setEntry_ne {α : Type} (l : List (Nat × α)) (k q : Nat) (v : α)
    (h : q ≠ k) : lookupE (setEntry l k v) q = lookupE l q := by
  induction l with
  | nil => simp [setEntry, lookupE, h]
  | cons hd tl ih =>
      obtain ⟨k', v'⟩ := hd
      by_cases h2 : k = k'
      · subst h2
        simp [setEntry, lookupE, h]
      · by_cases h3 : q = k' <;> simp [setEntry, lookupE, h2, h3, ih]

theorem lookupE_isSome_setEntry {α : Type} (l : List (Nat × α)) (k q : Nat)
    (v : α) (h : (lookupE l q).isSome = true) :
    (lookupE (setEntry l k v) q).isSome = true := by
  by_cases hq : q = k
  · subst hq
    rw [lookupE_setEntry_self]
    rfl
  · rw [lookupE_setEntry_ne _ _ _ _ hq]
    exact h

theorem lookupE_append_left {α : Type} (l l' : List (Nat × α)) (t : Nat)
    (r : α) (h : lookupE l t = some r) : lookupE (l ++ l') t = some r := by
  induction l with
  | nil => simp [lookupE] at h
  | cons hd tl ih =>
      obtain ⟨k', v'⟩ := hd
      by_cases h2 : t = k' <;> simp_all [lookupE]

theorem lookupE_removeEntry_ne {α : Type} (l : List (Nat × α)) (k q : Nat)
    (h : q ≠ k) : lookupE (removeEntry l k) q = lookupE l q := by
  induction l with
  | nil => simp [removeEntry, lookupE]
  | cons hd tl ih =>
      obtain ⟨k', v'⟩ := hd
      by_cases h2 : k' = k
      · subst h2
        simp [removeEntry, lookupE, h, List.filter] at ih ⊢
        exact ih
      · by_cases h3 : q = k' <;>
          simp_all [removeEntry, lookupE, List.filter, h2, h3]

theorem mem_setEntry {α : Type} {e : Nat × α} {l : List (Nat × α)} {k : Nat}
    {v : α} (h : e ∈ setEntry l k v) : e = (k, v) ∨ e ∈ l := by
  induction l with
  | nil => simpa [setEntry] using h
  | cons hd tl ih =>
      obtain ⟨k', v'⟩ := hd
      by_cases h2 : k = k'
      · subst h2
        simp [setEntry] at h
        rcases h with h | h
        · exact Or.inl h
        · exact Or.inr (List.mem_cons_of_mem _ h)
      · simp [setEntry, h2] at h
        rcases h with h | h
        · exact Or.inr (by simp [h])
        · rcases ih h with h3 | h3
          · exact Or.inl h3
          · exact Or.inr (List.mem_cons_of_mem _ h3)

theorem refIntegrity_mono (s s' : BrokerState) (h : RefIntegrity s)
    (hb : ∀ e ∈ s'.bindings, e ∈ s.bindings)
    (hi : ∀ q, (lookupE s.instances q).isSome = true →
      (lookupE s'.instances q).isSome = true) :
    RefIntegrity s' :=
  fun e he => hi _ (h e (hb e he))

theorem refIntegrity_removeInstance (s : BrokerState) (id : Nat)
    (h : RefIntegrity s) : RefIntegrity (removeInstance s id) := by
  intro e he
  have h2 := List.mem_filter.mp he
  have hne : e.2.serviceID ≠ id := by simpa using h2.2
  show (lookupE (removeEntry s.instances id) e.2.serviceID).isSome = true
  rw [lookupE_removeEntry_ne _ _ _ hne]
  exact h e h2.1

theorem completeEffect_operations (s : BrokerState) (r : OpRec) (o : Outcome) :
    (completeEffect s r o).operations = s.operations := by
  unfold completeEffect
  repeat' split
  all_goals rfl

theorem completeOp_operations (s : BrokerState) (t' : Nat) (o : Outcome) :
    (completeOp s t' o).operations = s.operations ∨
    ∃ r0, lookupE s.operations t' = some r0 ∧
      r0.state = OpState.inProgress ∧
      (completeOp s t' o).operations =
        setEntry s.operations t' (completedRec r0 o) := by
  unfold completeOp
  split
  · exact Or.inl rfl
  · rename_i r0 heq
    split
    · exact Or.inl rfl
    · exact Or.inl rfl
    · rename_i hst
      refine Or.inr ⟨r0, heq, hst, ?_⟩
      exact completeEffect_operations _ r0 o

theorem opRec_stable (a : BrokerAction) (s : BrokerState) (t : Nat) (r : OpRec)
    (hl : lookupE s.operations t = some r) (ht : r.state ≠ OpState.inProgress) :
    lookupE (applyAction a s).operations t = some r := by
  cases a with
  | provisionA id plan p ai =>
      show lookupE (provisionOp s id plan p ai).1.operations t = some r
      unfold provisionOp
      repeat' split
      all_goals first
        | exact hl
        | exact lookupE_append_left _ _ _ _ hl
  | deprovisionA id ai =>
      show lookupE (deprovisionOp s id ai).1.operations t = some r
      unfold deprovisionOp
      repeat' split
      all_goals first
        | exact hl
        | exact lookupE_append_left _ _ _ _ hl
  | bindA instID bindID p ai =>
      show lookupE (bindOp s instID bindID p ai).1.operations t = some r
      unfold bindOp
      repeat' split
      all_goals exact hl
  | unbindA instID bindID ai =>
      show lookupE (unbindOp s instID bindID ai).1.operations t = some r
      unfold unbindOp
      repeat' split
      all_goals exact hl
  | updateA id plan ai =>
      show lookupE (updateOp s id plan ai).1.operations t = some r
      unfold updateOp
      repeat' split
      all_goals exact hl
  | completeA t' o =>
      show lookupE (completeOp s t' o).operations t = some r
      rcases completeOp_operations s t' o with hops | ⟨r0, heq, hst, hops⟩
      · rw [hops]
        exact hl
      · rw [hops]
        by_cases htt : t = t'
        · subst htt
          rw [hl] at heq
          injection heq with h2
          subst h2
          exact absurd hst ht
        · rw [lookupE_setEntry_ne _ _ _ _ htt]
          exact hl

theorem refIntegrity_bind_add (s : BrokerState) (instID bindID : Nat)
    (p : Params) (creds : String) (v : InstanceRec) (h : RefIntegrity s) :
    RefIntegrity { s with
      bindings := setEntry s.bindings bindID ⟨instID, p, creds⟩,
      instances := setEntry s.instances instID v,
      bindCalls := s.bindCalls + 1 } := by
  intro e he
  rcases mem_setEntry he with he2 | he2
  · subst he2
    show (lookupE (setEntry s.instances instID v) instID).isSome = true
    rw [lookupE_setEntry_self]
    rfl
  · exact lookupE_isSome_setEntry _ _ _ _ (h e he2)

theorem completeEffect_refIntegrity (s : BrokerState) (r : OpRec) (o : Outcome)
    (h : RefIntegrity s) : RefIntegrity (completeEffect s r o) := by
  unfold completeEffect
  repeat' split
  all_goals first
    | exact h
    | exact refIntegrity_removeInstance _ _ h
    | exact refIntegrity_mono s _ h (fun e he => he)
        (fun q hq => lookupE_isSome_setEntry _ _ _ _ hq)

theorem refIntegrity_completeOp (s : BrokerState) (t : Nat) (o : Outcome)
    (h : RefIntegrity s) : RefIntegrity (completeOp s t o) := by
  unfold completeOp
  split
  · exact h
  · rename_i r0 heq
    split
    · exact h
    · exact h
    · exact completeEffect_refIntegrity _ _ _ (fun e he => h e he)

theorem refIntegrity_step (a : BrokerAction) (s : BrokerState)
    (h : RefIntegrity s) : RefIntegrity (applyAction a s) := by
  cases a with
  | provisionA id plan p ai =>
      show RefIntegrity (provisionOp s id plan p ai).1
      unfold provisionOp
      repeat' split
      all_goals first
        | exact h
        | exact refIntegrity_mono s _ h (fun e he => he)
            (fun q hq => lookupE_isSome_setEntry _ _ _ _ hq)
  | deprovisionA id ai =>
      show RefIntegrity (deprovisionOp s id ai).1
      unfold deprovisionOp
      repeat' split
      all_goals first
        | exact h
        | exact refIntegrity_removeInstance _ _ h
        | exact refIntegrity_mono s _ h (fun e he => he)
            (fun q hq => lookupE_isSome_setEntry _ _ _ _ hq)
  | bindA instID bindID p ai =>
      show RefIntegrity (bindOp s instID bindID p ai).1
      unfold bindOp
      repeat' split
      all_goals first
        | exact h
        | exact refIntegrity_bind_add s instID bindID p _ _ h
  | unbindA instID bindID ai =>
      show RefIntegrity (unbindOp s instID bindID ai).1
      unfold unbindOp
      repeat' split
      all_goals first
        | exact h
        | exact refIntegrity_mono s _ h
            (fun e he => List.mem_of_mem_filter he)
            (fun q hq => lookupE_isSome_setEntry _ _ _ _ hq)
        | exact refIntegrity_mono s _ h
            (fun e he => List.mem_of_mem_filter he) (fun q hq => hq)
  | updateA id plan ai =>
      show RefIntegrity (updateOp s id plan ai).1
      unfold updateOp
      repeat' split
      all_goals first
        | exact h
        | exact refIntegrity_mono s _ h (fun e he => he)
            (fun q hq => lookupE_isSome_setEntry _ _ _ _ hq)
  | completeA t o =>
      exact refIntegrity_completeOp s t o h

theorem provisionOp_provisioned (s : BrokerState) (id planID : Nat)
    (p : Params) (ai : Bool) (rec : InstanceRec)
    (hl : lookupE s.instances id = some rec)
    (hs : rec.state = InstanceState.provisioned) (hp : rec.params = p) :
    provisionOp s id planID p ai = (s, Except.ok ⟨rec.dashboardURL, ""⟩) := by
  simp [provisionOp, hl, hs, hp]

theorem provisionOp_sync_ok (s s₁ : BrokerState) (id planID : Nat)
    (p : Params) (r : ProvisionResponse)
    (h : provisionOp s id planID p false = (s₁, Except.ok r)) :
    ∃ rec, lookupE s₁.instances id = some rec ∧
      rec.state = InstanceState.provisioned ∧ rec.params = p ∧
      r = ⟨rec.dashboardURL, ""⟩ := by
  unfold provisionOp at h
  split at h
  · rename_i rec hl
    split at h
    · split at h
      · rename_i hs hp
        injection h with h1 h2
        subst h1
        injection h2 with h3
        exact ⟨rec, hl, hs, hp, h3.symm⟩
      · simp at h
    · simp at h
    · simp at h
    · simp at h
  · rename_i hl
    rw [if_neg (by decide)] at h
    injection h with h1 h2
    injection h2 with h3
    refine ⟨⟨planID, p, [], .provisioned, adapterCreate id p⟩, ?_, rfl, rfl, h3.symm⟩
    rw [← h1]
    exact lookupE_setEntry_self s.instances id _

theorem opRec_stable_run (acts : List BrokerAction) (s : BrokerState) (t : Nat)
    (r : OpRec) (hl : lookupE s.operations t = some r)
    (ht : r.state ≠ OpState.inProgress) :
    lookupE (runActions acts s).operations t = some r := by
  induction acts generalizing s with
  | nil => exact hl
  | cons a as ih => exact ih (applyAction a s) (opRec_stable a s t r hl ht)

theorem refIntegrity_run (acts : List BrokerAction) (s : BrokerState)
    (h : RefIntegrity s) : RefIntegrity (runActions acts s) := by
  induction acts generalizing s with
  | nil => exact h
  | cons a as ih => exact ih (applyAction a s) (refIntegrity_step a s h)

/-- Claim C1, as frozen, is false on the code: the package declares no error
value at all for the `AdapterFailure` kind of the taxonomy, so not every kind
of the taxonomy has a declared error value. -/
theorem c1_adapter_failure_counterexample :
    declaredErrorMessage ErrorKind.adapterFailure = none ∧
    ¬ ∀ k : ErrorKind, (declaredErrorMessage k).isSome = true := by
  refine ⟨rfl, fun h => ?_⟩
  have h2 := h ErrorKind.adapterFailure
  simp [declaredErrorMessage] at h2

/-- Claim C1 (amended): for each of the twelve concrete taxonomy kinds —
every kind except `AdapterFailure` — the package declares an error value, no
two kinds share one value, and `AdapterFailure` has no declared value (it is
opaque, wrapping whatever the Provisioner Adapter reports). -/
theorem c1_distinct_error_values :
    (∀ k : ErrorKind, k ≠ ErrorKind.adapterFailure →
        (declaredErrorMessage k).isSome = true) ∧
    (∀ k₁ k₂ : ErrorKind, (declaredErrorMessage k₁).isSome = true →
        declaredErrorMessage k₁ = declaredErrorMessage k₂ → k₁ = k₂) ∧
    declaredErrorMessage ErrorKind.adapterFailure = none := by
  refine ⟨?_, ?_, rfl⟩
  · intro k hk
    cases k <;> first | rfl | exact absurd rfl hk
  · intro k₁ k₂ h1 h2
    cases k₁ <;> cases k₂ <;>
      first
        | rfl
        | exact absurd h1 (by decide)
        | exact absurd h2 (by decide)

/-- Claim C1 witness: the amended statement applied at the `NotFound` and
`Duplicate` kinds. -/
theorem c1_distinct_error_values_witness :
    (declaredErrorMessage ErrorKind.notFound).isSome = true ∧
    ErrorKind.duplicate = ErrorKind.duplicate :=
  ⟨c1_distinct_error_values.1 ErrorKind.notFound (by decide),
    c1_distinct_error_values.2.1 ErrorKind.duplicate ErrorKind.duplicate
      (by decide) rfl⟩

/-- Claim C2: the broker interface declares exactly nine operations — catalog
listing, provision, deprovision, bind, unbind, update, last-operation
polling, service-instance lookup and binding lookup — and no others. -/
theorem c2_nine_operations :
    openServiceBroker.map (fun m => m.name) =
      ["Catalog", "Provision", "Deprovision", "Bind", "Unbind", "Update",
        "LastOperation", "GetServiceInstance", "GetBindInstance"] ∧
    openServiceBroker.length = 9 :=
  ⟨rfl, rfl⟩

/-- Claim C3: every state-mutating operation (provision, deprovision, bind,
unbind, update) takes both a `bool` (acceptsIncomplete) parameter and a
`context.Context` parameter, and no non-mutating operation (catalog,
last-operation, get-instance, get-binding) takes either. -/
theorem c3_mutating_signatures :
    ∀ m ∈ openServiceBroker,
      (m.name ∈ mutatingOps →
        GoType.boolT ∈ m.params ∧ GoType.contextT ∈ m.params) ∧
      (m.name ∉ mutatingOps →
        GoType.boolT ∉ m.params ∧ GoType.contextT ∉ m.params) := by
  decide

/-- Claim C3 witness: the statement applied at the interface's `Provision`
method. -/
theorem c3_mutating_signatures_witness :
    GoType.boolT ∈
      [GoType.uuid, GoType.ptr GoType.provisionRequest, GoType.boolT,
        GoType.contextT] ∧
    GoType.contextT ∈
      [GoType.uuid, GoType.ptr GoType.provisionRequest, GoType.boolT,
        GoType.contextT] :=
  (c3_mutating_signatures
      ⟨"Provision",
        [GoType.uuid, GoType.ptr GoType.provisionRequest, GoType.boolT,
          GoType.contextT],
        [GoType.ptr GoType.provisionResponse, GoType.errorT]⟩
      (by decide)).1 (by decide)

/-- Claim C4 (spec-modelled): provisioning an instance twice with identical
parameters is idempotent — once a provision call has completed successfully,
a repeated call with the same parameters returns the same response (in
particular the same dashboard URL), leaves the state untouched, and does not
invoke the Provisioner Adapter's `Create` a second time (the `Create` call
counter is unchanged). -/
theorem c4_provision_idempotent (s s₁ : BrokerState) (id planID : Nat)
    (p : Params) (r : ProvisionResponse) (ai : Bool)
    (h : provisionOp s id planID p false = (s₁, Except.ok r)) :
    provisionOp s₁ id planID p ai = (s₁, Except.ok r) ∧
    (provisionOp s₁ id planID p ai).1.createCalls = s₁.createCalls := by
  obtain ⟨rec, hl, hs, hp, hr⟩ := provisionOp_sync_ok s s₁ id planID p r h
  have h2 := provisionOp_provisioned s₁ id planID p ai rec hl hs hp
  subst hr
  exact ⟨h2, by rw [h2]⟩

/-- Claim C4 witness: provisioning instance 1 from the empty state and then a
second time with the same parameters. -/
theorem c4_provision_idempotent_witness :
    provisionOp demoProvisioned 1 10 demoParams false
        = (demoProvisioned, Except.ok ⟨"dashboard:1", ""⟩) ∧
    (provisionOp demoProvisioned 1 10 demoParams false).1.createCalls
        = demoProvisioned.createCalls :=
  c4_provision_idempotent (initState []) demoProvisioned 1 10 demoParams
    ⟨"dashboard:1", ""⟩ false (by rfl)

/-- Claim C5 (spec-modelled): deprovisioning an instance whose binding set is
non-empty fails with `BindingExists`, and the whole state — in particular the
Registry record of the instance — is left unchanged by the failed call. -/
theorem c5_deprovision_with_bindings (s : BrokerState) (id : Nat) (ai : Bool)
    (rec : InstanceRec) (hl : lookupE s.instances id = some rec)
    (hb : rec.bindingIDs ≠ []) :
    deprovisionOp s id ai = (s, Except.error ErrorKind.bindingExists) ∧
    lookupE (deprovisionOp s id ai).1.instances id = some rec := by
  have h1 : deprovisionOp s id ai = (s, Except.error ErrorKind.bindingExists) := by
    simp [deprovisionOp, hl, hb]
  refine ⟨h1, ?_⟩
  rw [h1]
  exact hl

/-- Claim C5 witness: deprovisioning instance 1 while binding 7 exists. -/
theorem c5_deprovision_with_bindings_witness :
    deprovisionOp demoBound 1 false
        = (demoBound, Except.error ErrorKind.bindingExists) ∧
    lookupE (deprovisionOp demoBound 1 false).1.instances 1
        = some ⟨10, demoParams, [7], InstanceState.provisioned, "dashboard:1"⟩ :=
  c5_deprovision_with_bindings demoBound 1 false
    ⟨10, demoParams, [7], InstanceState.provisioned, "dashboard:1"⟩
    (by rfl) (by decide)

/-- Claim C6 (spec-modelled): (1) polling a token whose Operation Record is
still in progress reports the `"in progress"` state; (2) once the record is
terminal, polling after any further sequence of operations still reports the
same terminal state and description — the state never returns to in-progress;
(3) the reported state string is always one of exactly `"in progress"`,
`"succeeded"`, `"failed"`. -/
theorem c6_last_operation_lifecycle :
    (∀ (s : BrokerState) (t : Nat) (r : OpRec),
        lookupE s.operations t = some r → r.state = OpState.inProgress →
        lastOperationOp s t =
          Except.ok ⟨LastOperationStateInProgress, r.description⟩) ∧
    (∀ (s : BrokerState) (t : Nat) (r : OpRec),
        lookupE s.operations t = some r → r.state ≠ OpState.inProgress →
        ∀ acts : List BrokerAction,
          lastOperationOp (runActions acts s) t =
            Except.ok ⟨opStateString r.state, r.description⟩) ∧
    (∀ st : OpState,
        opStateString st = LastOperationStateInProgress ∨
        opStateString st = LastOperationStateSucceeded ∨
        opStateString st = LastOperationStateFailed) := by
  refine ⟨?_, ?_, ?_⟩
  · intro s t r hl hst
    simp [lastOperationOp, hl, opStateString, hst]
  · intro s t r hl hterm acts
    have h1 := opRec_stable_run acts s t r hl hterm
    simp [lastOperationOp, h1]
  · intro st
    cases st <;> simp [opStateString]

/-- Claim C6 witness: polling the in-progress token 0, and polling it again
after completion and one further provision call. -/
theorem c6_last_operation_lifecycle_witness :
    lastOperationOp demoAsync 0 =
      Except.ok ⟨LastOperationStateInProgress, "provisioning"⟩ ∧
    lastOperationOp
        (runActions [BrokerAction.provisionA 3 10 demoParams false] demoDone) 0 =
      Except.ok ⟨opStateString OpState.succeeded, "completed"⟩ :=
  ⟨c6_last_operation_lifecycle.1 demoAsync 0
      ⟨2, OpKind.provision, OpState.inProgress, "provisioning"⟩ (by rfl) rfl,
    c6_last_operation_lifecycle.2.1 demoDone 0
      ⟨2, OpKind.provision, OpState.succeeded, "completed"⟩ (by rfl) (by decide)
      [BrokerAction.provisionA 3 10 demoParams false]⟩

/-- Claim C8 (spec-modelled): referential integrity between bindings and
instances — it holds in the initial state, every operation of the core
preserves it, and hence it holds in every reachable state: no binding record
names an owning service instance id absent from the Registry. -/
theorem c8_referential_integrity :
    (∀ catalog : List (Nat × List Nat), RefIntegrity (initState catalog)) ∧
    (∀ (a : BrokerAction) (s : BrokerState),
        RefIntegrity s → RefIntegrity (applyAction a s)) ∧
    (∀ (catalog : List (Nat × List Nat)) (acts : List BrokerAction),
        RefIntegrity (runActions acts (initState catalog))) := by
  have hinit : ∀ catalog : List (Nat × List Nat),
      RefIntegrity (initState catalog) := by
    intro catalog e he
    simp [initState] at he
  refine ⟨hinit, refIntegrity_step, ?_⟩
  intro catalog acts
  exact refIntegrity_run acts (initState catalog) (hinit catalog)

/-- Claim C8 witness: the preservation statement applied to a bind on the
concrete bound state. -/
theorem c8_referential_integrity_witness :
    RefIntegrity
      (applyAction (BrokerAction.bindA 1 8 demoParams false) demoBound) :=
  c8_referential_integrity.2.1 (BrokerAction.bindA 1 8 demoParams false)
    demoBound
    (by
      intro e he
      simp [demoBound] at he
      subst he
      rfl)

/-- Claim C9: `Bind` is the only interface method returning three values —
a `*BindResponse`, a bare `bool` and an `error` — while every other method
returns exactly two (a response pointer and an `error`, never a `bool`). -/
theorem c9_bind_triple_return :
    ∀ m ∈ openServiceBroker,
      (m.name = "Bind" →
        m.results =
          [GoType.ptr GoType.bindResponse, GoType.boolT, GoType.errorT]) ∧
      (m.name ≠ "Bind" →
        m.results.length = 2 ∧ GoType.boolT ∉ m.results) := by
  decide

/-- Claim C9 witness: the statement applied at the interface's `Bind`
method. -/
theorem c9_bind_triple_return_witness :
    ([GoType.ptr GoType.bindResponse, GoType.boolT, GoType.errorT] :
        List GoType) =
      [GoType.ptr GoType.bindResponse, GoType.boolT, GoType.errorT] :=
  (c9_bind_triple_return
      ⟨"Bind",
        [GoType.serviceInstance, GoType.uuid, GoType.ptr GoType.bindRequest,
          GoType.boolT, GoType.contextT],
        [GoType.ptr GoType.bindResponse, GoType.boolT, GoType.errorT]⟩
      (by decide)).1 rfl

/-- Claim C10: `UpdateRequest.Parameters` is a string-to-string map, while
the provision and bind requests use the named `Parameters` type, whose
underlying type admits arbitrary values — an asymmetry at the public
interface. -/
theorem c10_update_parameters_strings :
    fieldType updateRequestFields "Parameters" = some GoType.mapStringString ∧
    fieldType provisionRequestFields "Parameters" = some GoType.parametersT ∧
    fieldType bindRequestFields "Parameters" = some GoType.parametersT ∧
    parametersUnderlying = GoType.mapStringValue ∧
    GoType.mapStringString ≠ GoType.mapStringValue := by
  refine ⟨by decide, by decide, by decide, rfl, by decide⟩
